import Mathlib

/-!
Verification of the MessagePack encoder (`src/core/encode.rs`).

The encoder is embedded shallowly: every writer becomes a Lean function over
an explicit byte sink, machine integers become `Nat`/`Int` with explicit
wrap-around where Rust casts (`as u8`, `as i16`, ...) occur, and fallible
writes return `Except` values mirroring the crate's error taxonomy.

The byte sink models a writer that accepts a bounded number of bytes and then
reports an I/O failure, which is exactly the collaborator the spec's error
attribution properties quantify over.
-/

/-- Modelled from the spec: the `Marker` enumeration lives in the crate's core
module, which is outside the encoder source file; its variants and their
payload domains follow sections 3 and 4.1 of the specification. -/
inductive Marker where
  | PositiveFixnum (val : Nat)
  | NegativeFixnum (val : Int)
  | Null
  | True
  | False
  | U8
  | U16
  | U32
  | U64
  | I8
  | I16
  | I32
  | I64
  | F32
  | F64
  | FixedString (len : Nat)
  | Str8
  | Str16
  | Str32
  | Bin8
  | Bin16
  | Bin32
  | FixedArray (len : Nat)
  | Array16
  | Array32
  | FixedMap (len : Nat)
  | Map16
  | Map32
  | FixExt1
  | FixExt2
  | FixExt4
  | FixExt8
  | FixExt16
  | Ext8
  | Ext16
  | Ext32
  deriving DecidableEq

/-- Modelled from the spec: `Marker::to_u8`, the total map from a marker to its
wire tag byte (section 4.1); a negative fixnum is its two's-complement byte. -/
def Marker.to_u8 : Marker → Nat
  | .PositiveFixnum v => v
  | .NegativeFixnum v => (v % 256).toNat
  | .Null => 0xc0
  | .True => 0xc3
  | .False => 0xc2
  | .U8 => 0xcc
  | .U16 => 0xcd
  | .U32 => 0xce
  | .U64 => 0xcf
  | .I8 => 0xd0
  | .I16 => 0xd1
  | .I32 => 0xd2
  | .I64 => 0xd3
  | .F32 => 0xca
  | .F64 => 0xcb
  | .FixedString l => 0xa0 ||| l
  | .Str8 => 0xd9
  | .Str16 => 0xda
  | .Str32 => 0xdb
  | .Bin8 => 0xc4
  | .Bin16 => 0xc5
  | .Bin32 => 0xc6
  | .FixedArray l => 0x90 ||| l
  | .Array16 => 0xdc
  | .Array32 => 0xdd
  | .FixedMap l => 0x80 ||| l
  | .Map16 => 0xde
  | .Map32 => 0xdf
  | .FixExt1 => 0xd4
  | .FixExt2 => 0xd5
  | .FixExt4 => 0xd6
  | .FixExt8 => 0xd7
  | .FixExt16 => 0xd8
  | .Ext8 => 0xc7
  | .Ext16 => 0xc8
  | .Ext32 => 0xc9

/-- Modelled from the spec: the documented payload domains of the parametrised
marker variants (section 3): PositiveFixnum 0..127, NegativeFixnum -32..-1,
FixedString len < 32, FixedArray len < 16, FixedMap len < 16. -/
def Marker.inDomain : Marker → Bool
  | .PositiveFixnum v => decide (v < 128)
  | .NegativeFixnum v => decide (-32 ≤ v) && decide (v < 0)
  | .FixedString l => decide (l < 32)
  | .FixedArray l => decide (l < 16)
  | .FixedMap l => decide (l < 16)
  | _ => true

/-- The byte sink: a `Write` destination with a remaining capacity budget.
It accepts bytes while capacity remains and reports an I/O failure once the
budget is exhausted, keeping whatever fit before the failure. -/
structure Sink where
  cap : Nat
  data : List Nat
  deriving DecidableEq

/-- A bulk write against the sink (`write_all` semantics): appends the whole
buffer when it fits, otherwise appends the bytes that fit and fails. -/
def Sink.push (s : Sink) (bs : List Nat) : Bool × Sink :=
  if bs.length ≤ s.cap then (true, ⟨s.cap - bs.length, s.data ++ bs⟩)
  else (false, ⟨0, s.data ++ bs.take s.cap⟩)

/-- `WriteError`: opaque wrapper over the sink's I/O failure. -/
inductive WriteError
  | io
  deriving DecidableEq

/-- `MarkerWriteError`: an I/O failure that occurred while writing a marker. -/
inductive MarkerWriteError
  | mk (e : WriteError)
  deriving DecidableEq

/-- `FixedValueWriteError`: an I/O failure while writing a single-byte value. -/
inductive FixedValueWriteError
  | mk (e : WriteError)
  deriving DecidableEq

/-- `ValueWriteError`: marker-phase failure or data-phase failure. -/
inductive ValueWriteError
  | InvalidMarkerWrite (e : WriteError)
  | InvalidDataWrite (e : WriteError)
  deriving DecidableEq

/-- Rust cast `as u8` on an unsigned value. -/
def toU8 (v : Nat) : Nat := v % 256

/-- Rust cast `as u16` on an unsigned value. -/
def toU16 (v : Nat) : Nat := v % 65536

/-- Rust cast `as u32` on an unsigned value. -/
def toU32 (v : Nat) : Nat := v % 4294967296

/-- Rust cast `as i8` on a signed value (two's-complement wrap). -/
def toI8 (v : Int) : Int := (v + 128) % 256 - 128

/-- Rust cast `as i16` on a signed value (two's-complement wrap). -/
def toI16 (v : Int) : Int := (v + 32768) % 65536 - 32768

/-- Rust cast `as i32` on a signed value (two's-complement wrap). -/
def toI32 (v : Int) : Int := (v + 2147483648) % 4294967296 - 2147483648

/-- The byte carrying an `i8` on the wire: its two's-complement bits. -/
def i8Byte (v : Int) : Nat := (v % 256).toNat

/-- The 16 two's-complement bits of an `i16`. -/
def i16Bits (v : Int) : Nat := (v % 65536).toNat

/-- The 32 two's-complement bits of an `i32`. -/
def i32Bits (v : Int) : Nat := (v % 4294967296).toNat

/-- The 64 two's-complement bits of an `i64`. -/
def i64Bits (v : Int) : Nat := (v % 18446744073709551616).toNat

/-- Big-endian bytes of a 16-bit value. -/
def be2 (v : Nat) : List Nat := [v / 256 % 256, v % 256]

/-- Big-endian bytes of a 32-bit value. -/
def be4 (v : Nat) : List Nat :=
  [v / 16777216 % 256, v / 65536 % 256, v / 256 % 256, v % 256]

/-- Big-endian bytes of a 64-bit value. -/
def be8 (v : Nat) : List Nat :=
  [v / 72057594037927936 % 256, v / 281474976710656 % 256,
   v / 1099511627776 % 256, v / 4294967296 % 256,
   v / 16777216 % 256, v / 65536 % 256, v / 256 % 256, v % 256]

/-- `write_marker`: writes the marker's tag byte, turning an I/O failure into
a `MarkerWriteError`. -/
def write_marker (s : Sink) (m : Marker) : Except MarkerWriteError Unit × Sink :=
  match s.push [m.to_u8] with
  | (true, t) => (.ok (), t)
  | (false, t) => (.error (.mk .io), t)

/-- `write_fixval`: writes a fixed value's single byte, turning an I/O failure
into a `FixedValueWriteError`. -/
def write_fixval (s : Sink) (m : Marker) : Except FixedValueWriteError Unit × Sink :=
  match s.push [m.to_u8] with
  | (true, t) => (.ok (), t)
  | (false, t) => (.error (.mk .io), t)

/-- `write_nil`: encodes nil as the single byte 0xc0. -/
def write_nil (s : Sink) : Except FixedValueWriteError Unit × Sink :=
  write_fixval s .Null

/-- `write_bool`: encodes a boolean as its single marker byte. -/
def write_bool (s : Sink) (val : Bool) : Except FixedValueWriteError Unit × Sink :=
  match val with
  | true => write_fixval s .True
  | false => write_fixval s .False

/-- `write_pfix`: strict positive-fixnum writer; the `assert!(val < 128)` is
modelled as `none` (a panic) when the assertion fails. -/
def write_pfix (s : Sink) (val : Nat) :
    Option (Except FixedValueWriteError Unit × Sink) :=
  if val < 128 then some (write_fixval s (.PositiveFixnum val)) else none

/-- `write_nfix`: strict negative-fixnum writer; the
`assert!(-32 <= val && val < 0)` is modelled as `none` (a panic) when the
assertion fails. -/
def write_nfix (s : Sink) (val : Int) :
    Option (Except FixedValueWriteError Unit × Sink) :=
  if -32 ≤ val ∧ val < 0 then some (write_fixval s (.NegativeFixnum val)) else none

/-- `write_data_u8`: one payload byte; failure is a data-phase failure. -/
def write_data_u8 (s : Sink) (val : Nat) : Except ValueWriteError Unit × Sink :=
  match s.push [val] with
  | (true, t) => (.ok (), t)
  | (false, t) => (.error (.InvalidDataWrite .io), t)

/-- `write_data_u16`: two big-endian payload bytes. -/
def write_data_u16 (s : Sink) (val : Nat) : Except ValueWriteError Unit × Sink :=
  match s.push (be2 val) with
  | (true, t) => (.ok (), t)
  | (false, t) => (.error (.InvalidDataWrite .io), t)

/-- `write_data_u32`: four big-endian payload bytes. -/
def write_data_u32 (s : Sink) (val : Nat) : Except ValueWriteError Unit × Sink :=
  match s.push (be4 val) with
  | (true, t) => (.ok (), t)
  | (false, t) => (.error (.InvalidDataWrite .io), t)

/-- `write_data_u64`: eight big-endian payload bytes. -/
def write_data_u64 (s : Sink) (val : Nat) : Except ValueWriteError Unit × Sink :=
  match s.push (be8 val) with
  | (true, t) => (.ok (), t)
  | (false, t) => (.error (.InvalidDataWrite .io), t)

/-- `write_data_i8`: the two's-complement byte of an `i8`. -/
def write_data_i8 (s : Sink) (val : Int) : Except ValueWriteError Unit × Sink :=
  match s.push [i8Byte val] with
  | (true, t) => (.ok (), t)
  | (false, t) => (.error (.InvalidDataWrite .io), t)

/-- `write_data_i16`: the two big-endian two's-complement bytes of an `i16`. -/
def write_data_i16 (s : Sink) (val : Int) : Except ValueWriteError Unit × Sink :=
  match s.push (be2 (i16Bits val)) with
  | (true, t) => (.ok (), t)
  | (false, t) => (.error (.InvalidDataWrite .io), t)

/-- `write_data_i32`: the four big-endian two's-complement bytes of an `i32`. -/
def write_data_i32 (s : Sink) (val : Int) : Except ValueWriteError Unit × Sink :=
  match s.push (be4 (i32Bits val)) with
  | (true, t) => (.ok (), t)
  | (false, t) => (.error (.InvalidDataWrite .io), t)

/-- `write_data_i64`: the eight big-endian two's-complement bytes of an `i64`. -/
def write_data_i64 (s : Sink) (val : Int) : Except ValueWriteError Unit × Sink :=
  match s.push (be8 (i64Bits val)) with
  | (true, t) => (.ok (), t)
  | (false, t) => (.error (.InvalidDataWrite .io), t)

/-- `write_u8`: U8 marker then one data byte. -/
def write_u8 (s : Sink) (val : Nat) : Except ValueWriteError Unit × Sink :=
  match write_marker s .U8 with
  | (.error (.mk e), t) => (.error (.InvalidMarkerWrite e), t)
  | (.ok _, t) => write_data_u8 t val

/-- `write_u16`: U16 marker then two data bytes. -/
def write_u16 (s : Sink) (val : Nat) : Except ValueWriteError Unit × Sink :=
  match write_marker s .U16 with
  | (.error (.mk e), t) => (.error (.InvalidMarkerWrite e), t)
  | (.ok _, t) => write_data_u16 t val

/-- `write_u32`: U32 marker then four data bytes. -/
def write_u32 (s : Sink) (val : Nat) : Except ValueWriteError Unit × Sink :=
  match write_marker s .U32 with
  | (.error (.mk e), t) => (.error (.InvalidMarkerWrite e), t)
  | (.ok _, t) => write_data_u32 t val

/-- `write_u64`: U64 marker then eight data bytes. -/
def write_u64 (s : Sink) (val : Nat) : Except ValueWriteError Unit × Sink :=
  match write_marker s .U64 with
  | (.error (.mk e), t) => (.error (.InvalidMarkerWrite e), t)
  | (.ok _, t) => write_data_u64 t val

/-- `write_i8`: I8 marker then one data byte. -/
def write_i8 (s : Sink) (val : Int) : Except ValueWriteError Unit × Sink :=
  match write_marker s .I8 with
  | (.error (.mk e), t) => (.error (.InvalidMarkerWrite e), t)
  | (.ok _, t) => write_data_i8 t val

/-- `write_i16`: I16 marker then two data bytes. -/
def write_i16 (s : Sink) (val : Int) : Except ValueWriteError Unit × Sink :=
  match write_marker s .I16 with
  | (.error (.mk e), t) => (.error (.InvalidMarkerWrite e), t)
  | (.ok _, t) => write_data_i16 t val

/-- `write_i32`: I32 marker then four data bytes. -/
def write_i32 (s : Sink) (val : Int) : Except ValueWriteError Unit × Sink :=
  match write_marker s .I32 with
  | (.error (.mk e), t) => (.error (.InvalidMarkerWrite e), t)
  | (.ok _, t) => write_data_i32 t val

/-- `write_i64`: I64 marker then eight data bytes. -/
def write_i64 (s : Sink) (val : Int) : Except ValueWriteError Unit × Sink :=
  match write_marker s .I64 with
  | (.error (.mk e), t) => (.error (.InvalidMarkerWrite e), t)
  | (.ok _, t) => write_data_i64 t val

/-- `write_uint`: ascending-threshold selection of the shortest unsigned
representation, returning the marker used. -/
def write_uint (s : Sink) (val : Nat) : Except ValueWriteError Marker × Sink :=
  if val < 128 then
    match write_fixval s (.PositiveFixnum (toU8 val)) with
    | (.ok _, t) => (.ok (.PositiveFixnum (toU8 val)), t)
    | (.error (.mk e), t) => (.error (.InvalidMarkerWrite e), t)
  else if val < 256 then
    match write_u8 s (toU8 val) with
    | (.ok _, t) => (.ok .U8, t)
    | (.error e, t) => (.error e, t)
  else if val < 65536 then
    match write_u16 s (toU16 val) with
    | (.ok _, t) => (.ok .U16, t)
    | (.error e, t) => (.error e, t)
  else if val < 4294967296 then
    match write_u32 s (toU32 val) with
    | (.ok _, t) => (.ok .U32, t)
    | (.error e, t) => (.error e, t)
  else
    match write_u64 s val with
    | (.ok _, t) => (.ok .U64, t)
    | (.error e, t) => (.error e, t)

/-- `write_sint`: ascending-threshold selection of the shortest signed
representation, returning the marker used; 0 goes through the
negative-fixnum branch. -/
def write_sint (s : Sink) (val : Int) : Except ValueWriteError Marker × Sink :=
  if -32 ≤ val ∧ val ≤ 0 then
    match write_fixval s (.NegativeFixnum (toI8 val)) with
    | (.ok _, t) => (.ok (.NegativeFixnum (toI8 val)), t)
    | (.error (.mk e), t) => (.error (.InvalidMarkerWrite e), t)
  else if -128 ≤ val ∧ val < 128 then
    match write_i8 s (toI8 val) with
    | (.ok _, t) => (.ok .I8, t)
    | (.error e, t) => (.error e, t)
  else if -32768 ≤ val ∧ val < 32768 then
    match write_i16 s (toI16 val) with
    | (.ok _, t) => (.ok .I16, t)
    | (.error e, t) => (.error e, t)
  else if -2147483648 ≤ val ∧ val ≤ 2147483647 then
    match write_i32 s (toI32 val) with
    | (.ok _, t) => (.ok .I32, t)
    | (.error e, t) => (.error e, t)
  else
    match write_i64 s val with
    | (.ok _, t) => (.ok .I64, t)
    | (.error e, t) => (.error e, t)

/-- `write_str_len`: the most efficient string length header, returning the
marker used. -/
def write_str_len (s : Sink) (len : Nat) : Except ValueWriteError Marker × Sink :=
  if len < 32 then
    match write_fixval s (.FixedString (toU8 len)) with
    | (.ok _, t) => (.ok (.FixedString (toU8 len)), t)
    | (.error (.mk e), t) => (.error (.InvalidMarkerWrite e), t)
  else if len < 256 then
    match write_marker s .Str8 with
    | (.error (.mk e), t) => (.error (.InvalidMarkerWrite e), t)
    | (.ok _, t) =>
      match write_data_u8 t (toU8 len) with
      | (.ok _, u) => (.ok .Str8, u)
      | (.error e, u) => (.error e, u)
  else if len < 65536 then
    match write_marker s .Str16 with
    | (.error (.mk e), t) => (.error (.InvalidMarkerWrite e), t)
    | (.ok _, t) =>
      match write_data_u16 t (toU16 len) with
      | (.ok _, u) => (.ok .Str16, u)
      | (.error e, u) => (.error e, u)
  else
    match write_marker s .Str32 with
    | (.error (.mk e), t) => (.error (.InvalidMarkerWrite e), t)
    | (.ok _, t) =>
      match write_data_u32 t len with
      | (.ok _, u) => (.ok .Str32, u)
      | (.error e, u) => (.error e, u)

/-- `write_bin_len`: the most efficient binary length header (no fixed form). -/
def write_bin_len (s : Sink) (len : Nat) : Except ValueWriteError Marker × Sink :=
  if len < 256 then
    match write_marker s .Bin8 with
    | (.error (.mk e), t) => (.error (.InvalidMarkerWrite e), t)
    | (.ok _, t) =>
      match write_data_u8 t (toU8 len) with
      | (.ok _, u) => (.ok .Bin8, u)
      | (.error e, u) => (.error e, u)
  else if len < 65536 then
    match write_marker s .Bin16 with
    | (.error (.mk e), t) => (.error (.InvalidMarkerWrite e), t)
    | (.ok _, t) =>
      match write_data_u16 t (toU16 len) with
      | (.ok _, u) => (.ok .Bin16, u)
      | (.error e, u) => (.error e, u)
  else
    match write_marker s .Bin32 with
    | (.error (.mk e), t) => (.error (.InvalidMarkerWrite e), t)
    | (.ok _, t) =>
      match write_data_u32 t len with
      | (.ok _, u) => (.ok .Bin32, u)
      | (.error e, u) => (.error e, u)

/-- `write_array_len`: the most efficient array length header. -/
def write_array_len (s : Sink) (len : Nat) : Except ValueWriteError Marker × Sink :=
  if len < 16 then
    match write_fixval s (.FixedArray (toU8 len)) with
    | (.ok _, t) => (.ok (.FixedArray (toU8 len)), t)
    | (.error (.mk e), t) => (.error (.InvalidMarkerWrite e), t)
  else if len < 65536 then
    match write_marker s .Array16 with
    | (.error (.mk e), t) => (.error (.InvalidMarkerWrite e), t)
    | (.ok _, t) =>
      match write_data_u16 t (toU16 len) with
      | (.ok _, u) => (.ok .Array16, u)
      | (.error e, u) => (.error e, u)
  else
    match write_marker s .Array32 with
    | (.error (.mk e), t) => (.error (.InvalidMarkerWrite e), t)
    | (.ok _, t) =>
      match write_data_u32 t len with
      | (.ok _, u) => (.ok .Array32, u)
      | (.error e, u) => (.error e, u)

/-- `write_map_len`: the most efficient map length header. -/
def write_map_len (s : Sink) (len : Nat) : Except ValueWriteError Marker × Sink :=
  if len < 16 then
    match write_fixval s (.FixedMap (toU8 len)) with
    | (.ok _, t) => (.ok (.FixedMap (toU8 len)), t)
    | (.error (.mk e), t) => (.error (.InvalidMarkerWrite e), t)
  else if len < 65536 then
    match write_marker s .Map16 with
    | (.error (.mk e), t) => (.error (.InvalidMarkerWrite e), t)
    | (.ok _, t) =>
      match write_data_u16 t (toU16 len) with
      | (.ok _, u) => (.ok .Map16, u)
      | (.error e, u) => (.error e, u)
  else
    match write_marker s .Map32 with
    | (.error (.mk e), t) => (.error (.InvalidMarkerWrite e), t)
    | (.ok _, t) =>
      match write_data_u32 t len with
      | (.ok _, u) => (.ok .Map32, u)
      | (.error e, u) => (.error e, u)

/-- `write_ext_meta`: extension header (marker, explicit length when not a
fixed form, then the 1-byte signed type tag); the Rust `match` with literal
arms and range guards is a sequential test, rendered here as an if-chain. -/
def write_ext_meta (s : Sink) (len : Nat) (typeid : Int) :
    Except ValueWriteError Marker × Sink :=
  if len = 1 then
    match write_marker s .FixExt1 with
    | (.error (.mk e), t) => (.error (.InvalidMarkerWrite e), t)
    | (.ok _, t) =>
      match write_data_i8 t typeid with
      | (.ok _, u) => (.ok .FixExt1, u)
      | (.error e, u) => (.error e, u)
  else if len = 2 then
    match write_marker s .FixExt2 with
    | (.error (.mk e), t) => (.error (.InvalidMarkerWrite e), t)
    | (.ok _, t) =>
      match write_data_i8 t typeid with
      | (.ok _, u) => (.ok .FixExt2, u)
      | (.error e, u) => (.error e, u)
  else if len = 4 then
    match write_marker s .FixExt4 with
    | (.error (.mk e), t) => (.error (.InvalidMarkerWrite e), t)
    | (.ok _, t) =>
      match write_data_i8 t typeid with
      | (.ok _, u) => (.ok .FixExt4, u)
      | (.error e, u) => (.error e, u)
  else if len = 8 then
    match write_marker s .FixExt8 with
    | (.error (.mk e), t) => (.error (.InvalidMarkerWrite e), t)
    | (.ok _, t) =>
      match write_data_i8 t typeid with
      | (.ok _, u) => (.ok .FixExt8, u)
      | (.error e, u) => (.error e, u)
  else if len = 16 then
    match write_marker s .FixExt16 with
    | (.error (.mk e), t) => (.error (.InvalidMarkerWrite e), t)
    | (.ok _, t) =>
      match write_data_i8 t typeid with
      | (.ok _, u) => (.ok .FixExt16, u)
      | (.error e, u) => (.error e, u)
  else if len < 256 then
    match write_marker s .Ext8 with
    | (.error (.mk e), t) => (.error (.InvalidMarkerWrite e), t)
    | (.ok _, t) =>
      match write_data_u8 t (toU8 len) with
      | (.error e, u) => (.error e, u)
      | (.ok _, u) =>
        match write_data_i8 u typeid with
        | (.ok _, w) => (.ok .Ext8, w)
        | (.error e, w) => (.error e, w)
  else if len < 65536 then
    match write_marker s .Ext16 with
    | (.error (.mk e), t) => (.error (.InvalidMarkerWrite e), t)
    | (.ok _, t) =>
      match write_data_u16 t (toU16 len) with
      | (.error e, u) => (.error e, u)
      | (.ok _, u) =>
        match write_data_i8 u typeid with
        | (.ok _, w) => (.ok .Ext16, w)
        | (.error e, w) => (.error e, w)
  else
    match write_marker s .Ext32 with
    | (.error (.mk e), t) => (.error (.InvalidMarkerWrite e), t)
    | (.ok _, t) =>
      match write_data_u32 t len with
      | (.error e, u) => (.error e, u)
      | (.ok _, u) =>
        match write_data_i8 u typeid with
        | (.ok _, w) => (.ok .Ext32, w)
        | (.error e, w) => (.error e, w)

/-- The structured-value encoder's error type (`serialize::Error`): every
`ValueWriteError` and raw I/O failure collapses to `Unimplemented`. -/
inductive SError
  | InvalidFixedValueWrite (e : WriteError)
  | Unimplemented
  deriving DecidableEq

/-- `Encoder::emit_nil`. -/
def emit_nil (s : Sink) : Except SError Unit × Sink :=
  match write_nil s with
  | (.ok _, t) => (.ok (), t)
  | (.error (.mk e), t) => (.error (.InvalidFixedValueWrite e), t)

/-- `Encoder::emit_bool`. -/
def emit_bool (s : Sink) (val : Bool) : Except SError Unit × Sink :=
  match write_bool s val with
  | (.ok _, t) => (.ok (), t)
  | (.error (.mk e), t) => (.error (.InvalidFixedValueWrite e), t)

/-- `Encoder::emit_str`: a string is its UTF-8 bytes; the length header uses
the byte length cast to `u32`, then the bytes are written in bulk. -/
def emit_str (s : Sink) (val : List Nat) : Except SError Unit × Sink :=
  match write_str_len s (toU32 val.length) with
  | (.error _, t) => (.error .Unimplemented, t)
  | (.ok _, t) =>
    match t.push val with
    | (true, u) => (.ok (), u)
    | (false, u) => (.error .Unimplemented, u)

/-- `Encoder::emit_seq`: array length header (length cast to `u32`), then the
caller-supplied element continuation. -/
def emit_seq (s : Sink) (len : Nat) (f : Sink → Except SError Unit × Sink) :
    Except SError Unit × Sink :=
  match write_array_len s (toU32 len) with
  | (.error _, t) => (.error .Unimplemented, t)
  | (.ok _, t) => f t

/-- `Encoder::emit_seq_elt`: runs the element continuation directly. -/
def emit_seq_elt (s : Sink) (_idx : Nat) (f : Sink → Except SError Unit × Sink) :
    Except SError Unit × Sink :=
  f s

/-- `Encoder::emit_tuple`: array length header, then the field continuation. -/
def emit_tuple (s : Sink) (len : Nat) (f : Sink → Except SError Unit × Sink) :
    Except SError Unit × Sink :=
  match write_array_len s (toU32 len) with
  | (.error _, t) => (.error .Unimplemented, t)
  | (.ok _, t) => f t

/-- `Encoder::emit_map`: map length header, then the entry continuation. -/
def emit_map (s : Sink) (len : Nat) (f : Sink → Except SError Unit × Sink) :
    Except SError Unit × Sink :=
  match write_map_len s (toU32 len) with
  | (.error _, t) => (.error .Unimplemented, t)
  | (.ok _, t) => f t

/-- `Encoder::emit_option`: runs the wrapped continuation directly. -/
def emit_option (s : Sink) (f : Sink → Except SError Unit × Sink) :
    Except SError Unit × Sink :=
  f s

/-- `Encoder::emit_option_none`: nil. -/
def emit_option_none (s : Sink) : Except SError Unit × Sink :=
  emit_nil s

/-- `Encoder::emit_option_some`: runs the wrapped continuation directly. -/
def emit_option_some (s : Sink) (f : Sink → Except SError Unit × Sink) :
    Except SError Unit × Sink :=
  f s

/-- Sequencing of fallible encoder steps, as a driving callback's early-return
chain does over the two elements of a sequence. -/
def andThenE (r : Except SError Unit × Sink)
    (f : Sink → Except SError Unit × Sink) : Except SError Unit × Sink :=
  match r with
  | (.ok _, t) => f t
  | (.error e, t) => (.error e, t)

theorem Sink.push_all (c : Nat) (d bs : List Nat) (h : bs.length ≤ c) :
    Sink.push ⟨c, d⟩ bs = (true, ⟨c - bs.length, d ++ bs⟩) := by
  simp [Sink.push, h]

theorem Sink.push_over (c : Nat) (d bs : List Nat) (h : c < bs.length) :
    Sink.push ⟨c, d⟩ bs = (false, ⟨0, d ++ bs.take c⟩) := by
  have hn : ¬ bs.length ≤ c := by omega
  simp [Sink.push, hn]

theorem write_fixval_ok (c : Nat) (d : List Nat) (m : Marker) (h : 1 ≤ c) :
    write_fixval ⟨c, d⟩ m = (.ok (), ⟨c - 1, d ++ [m.to_u8]⟩) := by
  have hp := Sink.push_all c d [m.to_u8] (by simpa using h)
  simp only [List.length_cons, List.length_nil] at hp
  simp [write_fixval, hp]

theorem write_fixval_fail (d : List Nat) (m : Marker) :
    write_fixval ⟨0, d⟩ m = (.error (.mk .io), ⟨0, d⟩) := by
  simp [write_fixval, Sink.push]

theorem write_marker_ok (c : Nat) (d : List Nat) (m : Marker) (h : 1 ≤ c) :
    write_marker ⟨c, d⟩ m = (.ok (), ⟨c - 1, d ++ [m.to_u8]⟩) := by
  have hp := Sink.push_all c d [m.to_u8] (by simpa using h)
  simp only [List.length_cons, List.length_nil] at hp
  simp [write_marker, hp]

theorem write_marker_fail (d : List Nat) (m : Marker) :
    write_marker ⟨0, d⟩ m = (.error (.mk .io), ⟨0, d⟩) := by
  simp [write_marker, Sink.push]

theorem write_data_u8_ok (c : Nat) (d : List Nat) (v : Nat) (h : 1 ≤ c) :
    write_data_u8 ⟨c, d⟩ v = (.ok (), ⟨c - 1, d ++ [v]⟩) := by
  have hp := Sink.push_all c d [v] (by simpa using h)
  simp only [List.length_cons, List.length_nil] at hp
  simp [write_data_u8, hp]

theorem write_data_u16_ok (c : Nat) (d : List Nat) (v : Nat) (h : 2 ≤ c) :
    write_data_u16 ⟨c, d⟩ v = (.ok (), ⟨c - 2, d ++ be2 v⟩) := by
  have hp := Sink.push_all c d (be2 v) (by simp [be2]; omega)
  simp only [be2, List.length_cons, List.length_nil] at hp
  simp [write_data_u16, be2, hp]

theorem write_data_u32_ok (c : Nat) (d : List Nat) (v : Nat) (h : 4 ≤ c) :
    write_data_u32 ⟨c, d⟩ v = (.ok (), ⟨c - 4, d ++ be4 v⟩) := by
  have hp := Sink.push_all c d (be4 v) (by simp [be4]; omega)
  simp only [be4, List.length_cons, List.length_nil] at hp
  simp [write_data_u32, be4, hp]

theorem write_data_u64_ok (c : Nat) (d : List Nat) (v : Nat) (h : 8 ≤ c) :
    write_data_u64 ⟨c, d⟩ v = (.ok (), ⟨c - 8, d ++ be8 v⟩) := by
  have hp := Sink.push_all c d (be8 v) (by simp [be8]; omega)
  simp only [be8, List.length_cons, List.length_nil] at hp
  simp [write_data_u64, be8, hp]

theorem write_data_i8_ok (c : Nat) (d : List Nat) (v : Int) (h : 1 ≤ c) :
    write_data_i8 ⟨c, d⟩ v = (.ok (), ⟨c - 1, d ++ [i8Byte v]⟩) := by
  have hp := Sink.push_all c d [i8Byte v] (by simpa using h)
  simp only [List.length_cons, List.length_nil] at hp
  simp [write_data_i8, hp]

theorem write_data_i16_ok (c : Nat) (d : List Nat) (v : Int) (h : 2 ≤ c) :
    write_data_i16 ⟨c, d⟩ v = (.ok (), ⟨c - 2, d ++ be2 (i16Bits v)⟩) := by
  have hp := Sink.push_all c d (be2 (i16Bits v)) (by simp [be2]; omega)
  simp only [be2, List.length_cons, List.length_nil] at hp
  simp [write_data_i16, be2, hp]

theorem write_data_i32_ok (c : Nat) (d : List Nat) (v : Int) (h : 4 ≤ c) :
    write_data_i32 ⟨c, d⟩ v = (.ok (), ⟨c - 4, d ++ be4 (i32Bits v)⟩) := by
  have hp := Sink.push_all c d (be4 (i32Bits v)) (by simp [be4]; omega)
  simp only [be4, List.length_cons, List.length_nil] at hp
  simp [write_data_i32, be4, hp]

theorem write_data_i64_ok (c : Nat) (d : List Nat) (v : Int) (h : 8 ≤ c) :
    write_data_i64 ⟨c, d⟩ v = (.ok (), ⟨c - 8, d ++ be8 (i64Bits v)⟩) := by
  have hp := Sink.push_all c d (be8 (i64Bits v)) (by simp [be8]; omega)
  simp only [be8, List.length_cons, List.length_nil] at hp
  simp [write_data_i64, be8, hp]

theorem write_u8_ok (c : Nat) (d : List Nat) (v : Nat) (h : 2 ≤ c) :
    write_u8 ⟨c, d⟩ v = (.ok (), ⟨c - 2, d ++ [0xcc, v]⟩) := by
  have h1 := write_marker_ok c d Marker.U8 (by omega)
  simp only [Marker.to_u8] at h1
  have h2 := write_data_u8_ok (c - 1) (d ++ [(0xcc : Nat)]) v (by omega)
  simp [write_u8, h1, h2, Nat.sub_sub]

theorem write_u16_ok (c : Nat) (d : List Nat) (v : Nat) (h : 3 ≤ c) :
    write_u16 ⟨c, d⟩ v = (.ok (), ⟨c - 3, d ++ 0xcd :: be2 v⟩) := by
  have h1 := write_marker_ok c d Marker.U16 (by omega)
  simp only [Marker.to_u8] at h1
  have h2 := write_data_u16_ok (c - 1) (d ++ [(0xcd : Nat)]) v (by omega)
  simp [write_u16, h1, h2, be2, Nat.sub_sub]

theorem write_u32_ok (c : Nat) (d : List Nat) (v : Nat) (h : 5 ≤ c) :
    write_u32 ⟨c, d⟩ v = (.ok (), ⟨c - 5, d ++ 0xce :: be4 v⟩) := by
  have h1 := write_marker_ok c d Marker.U32 (by omega)
  simp only [Marker.to_u8] at h1
  have h2 := write_data_u32_ok (c - 1) (d ++ [(0xce : Nat)]) v (by omega)
  simp [write_u32, h1, h2, be4, Nat.sub_sub]

theorem write_u64_ok (c : Nat) (d : List Nat) (v : Nat) (h : 9 ≤ c) :
    write_u64 ⟨c, d⟩ v = (.ok (), ⟨c - 9, d ++ 0xcf :: be8 v⟩) := by
  have h1 := write_marker_ok c d Marker.U64 (by omega)
  simp only [Marker.to_u8] at h1
  have h2 := write_data_u64_ok (c - 1) (d ++ [(0xcf : Nat)]) v (by omega)
  simp [write_u64, h1, h2, be8, Nat.sub_sub]

theorem write_i8_ok (c : Nat) (d : List Nat) (v : Int) (h : 2 ≤ c) :
    write_i8 ⟨c, d⟩ v = (.ok (), ⟨c - 2, d ++ [0xd0, i8Byte v]⟩) := by
  have h1 := write_marker_ok c d Marker.I8 (by omega)
  simp only [Marker.to_u8] at h1
  have h2 := write_data_i8_ok (c - 1) (d ++ [(0xd0 : Nat)]) v (by omega)
  simp [write_i8, h1, h2, Nat.sub_sub]

theorem write_i16_ok (c : Nat) (d : List Nat) (v : Int) (h : 3 ≤ c) :
    write_i16 ⟨c, d⟩ v = (.ok (), ⟨c - 3, d ++ 0xd1 :: be2 (i16Bits v)⟩) := by
  have h1 := write_marker_ok c d Marker.I16 (by omega)
  simp only [Marker.to_u8] at h1
  have h2 := write_data_i16_ok (c - 1) (d ++ [(0xd1 : Nat)]) v (by omega)
  simp [write_i16, h1, h2, be2, Nat.sub_sub]

theorem write_i32_ok (c : Nat) (d : List Nat) (v : Int) (h : 5 ≤ c) :
    write_i32 ⟨c, d⟩ v = (.ok (), ⟨c - 5, d ++ 0xd2 :: be4 (i32Bits v)⟩) := by
  have h1 := write_marker_ok c d Marker.I32 (by omega)
  simp only [Marker.to_u8] at h1
  have h2 := write_data_i32_ok (c - 1) (d ++ [(0xd2 : Nat)]) v (by omega)
  simp [write_i32, h1, h2, be4, Nat.sub_sub]

theorem write_i64_ok (c : Nat) (d : List Nat) (v : Int) (h : 9 ≤ c) :
    write_i64 ⟨c, d⟩ v = (.ok (), ⟨c - 9, d ++ 0xd3 :: be8 (i64Bits v)⟩) := by
  have h1 := write_marker_ok c d Marker.I64 (by omega)
  simp only [Marker.to_u8] at h1
  have h2 := write_data_i64_ok (c - 1) (d ++ [(0xd3 : Nat)]) v (by omega)
  simp [write_i64, h1, h2, be8, Nat.sub_sub]

/-- C1: for every u64 value v, write_uint selects the representation by
ascending thresholds and returns the marker actually used: v < 128 emits the
single byte v and returns PositiveFixnum(v); 128 <= v < 256 emits [0xcc, v]
and returns U8; 256 <= v < 65536 emits 0xcd plus the 2-byte big-endian value
and returns U16; 65536 <= v < 2^32 emits 0xce plus the 4-byte big-endian value
and returns U32; otherwise it emits 0xcf plus the 8-byte big-endian value and
returns U64. -/
theorem write_uint_selects (v c : Nat) (d : List Nat)
    (hv : v < 18446744073709551616) (hc : 9 ≤ c) :
    (v < 128 →
      write_uint ⟨c, d⟩ v = (.ok (.PositiveFixnum v), ⟨c - 1, d ++ [v]⟩)) ∧
    (128 ≤ v → v < 256 →
      write_uint ⟨c, d⟩ v = (.ok .U8, ⟨c - 2, d ++ [0xcc, v]⟩)) ∧
    (256 ≤ v → v < 65536 →
      write_uint ⟨c, d⟩ v =
        (.ok .U16, ⟨c - 3, d ++ [0xcd, v / 256, v % 256]⟩)) ∧
    (65536 ≤ v → v < 4294967296 →
      write_uint ⟨c, d⟩ v =
        (.ok .U32, ⟨c - 5,
          d ++ [0xce, v / 16777216, v / 65536 % 256, v / 256 % 256, v % 256]⟩)) ∧
    (4294967296 ≤ v →
      write_uint ⟨c, d⟩ v =
        (.ok .U64, ⟨c - 9,
          d ++ [0xcf, v / 72057594037927936, v / 281474976710656 % 256,
                v / 1099511627776 % 256, v / 4294967296 % 256,
                v / 16777216 % 256, v / 65536 % 256, v / 256 % 256,
                v % 256]⟩)) := by
  refine ⟨?_, ?_, ?_, ?_, ?_⟩
  · intro h1
    have htu : toU8 v = v := by simp only [toU8]; omega
    have hf := write_fixval_ok c d (Marker.PositiveFixnum v) (by omega)
    simp only [Marker.to_u8] at hf
    simp [write_uint, h1, htu, hf]
  · intro h2l h2r
    have h1 : ¬ v < 128 := by omega
    have htu : toU8 v = v := by simp only [toU8]; omega
    have hw := write_u8_ok c d v (by omega)
    simp [write_uint, h1, h2r, htu, hw]
  · intro h3l h3r
    have h1 : ¬ v < 128 := by omega
    have h2 : ¬ v < 256 := by omega
    have htu : toU16 v = v := by simp only [toU16]; omega
    have hw := write_u16_ok c d v (by omega)
    simp [write_uint, h1, h2, h3r, htu, hw, be2]
    omega
  · intro h4l h4r
    have h1 : ¬ v < 128 := by omega
    have h2 : ¬ v < 256 := by omega
    have h3 : ¬ v < 65536 := by omega
    have htu : toU32 v = v := by simp only [toU32]; omega
    have hw := write_u32_ok c d v (by omega)
    simp [write_uint, h1, h2, h3, h4r, htu, hw, be4]
    omega
  · intro h5
    have h1 : ¬ v < 128 := by omega
    have h2 : ¬ v < 256 := by omega
    have h3 : ¬ v < 65536 := by omega
    have h4 : ¬ v < 4294967296 := by omega
    have hw := write_u64_ok c d v (by omega)
    simp [write_uint, h1, h2, h3, h4, hw, be8]
    omega

/-- C1 witness: write_uint at 300 takes the U16 branch. -/
theorem write_uint_selects_witness :
    write_uint ⟨9, []⟩ 300 = (.ok Marker.U16, ⟨6, [0xcd, 1, 44]⟩) :=
  (write_uint_selects 300 9 [] (by decide) (by decide)).2.2.1 (by decide) (by decide)

/-- C2: for every i64 value v, write_sint selects the representation by the
signed thresholds and returns the marker used: -32 <= v <= 0 emits the single
negative-fixnum byte (0 included, via the negative-fixnum branch); otherwise
-128 <= v < 128 emits 0xd0 plus one byte; -32768 <= v < 32768 emits 0xd1 plus
2 big-endian bytes; -2^31 <= v <= 2^31-1 emits 0xd2 plus 4 big-endian bytes;
otherwise 0xd3 plus 8 big-endian bytes. -/
theorem write_sint_selects (v : Int) (c : Nat) (d : List Nat)
    (hv1 : -9223372036854775808 ≤ v) (hv2 : v < 9223372036854775808)
    (hc : 9 ≤ c) :
    (-32 ≤ v → v ≤ 0 →
      write_sint ⟨c, d⟩ v =
        (.ok (.NegativeFixnum v), ⟨c - 1, d ++ [(v % 256).toNat]⟩)) ∧
    (¬ (-32 ≤ v ∧ v ≤ 0) → -128 ≤ v → v < 128 →
      write_sint ⟨c, d⟩ v =
        (.ok .I8, ⟨c - 2, d ++ [0xd0, (v % 256).toNat]⟩)) ∧
    (¬ (-128 ≤ v ∧ v < 128) → -32768 ≤ v → v < 32768 →
      write_sint ⟨c, d⟩ v =
        (.ok .I16, ⟨c - 3,
          d ++ [0xd1, (v % 65536).toNat / 256, (v % 65536).toNat % 256]⟩)) ∧
    (¬ (-32768 ≤ v ∧ v < 32768) → -2147483648 ≤ v → v ≤ 2147483647 →
      write_sint ⟨c, d⟩ v =
        (.ok .I32, ⟨c - 5,
          d ++ [0xd2, (v % 4294967296).toNat / 16777216,
                (v % 4294967296).toNat / 65536 % 256,
                (v % 4294967296).toNat / 256 % 256,
                (v % 4294967296).toNat % 256]⟩)) ∧
    (¬ (-2147483648 ≤ v ∧ v ≤ 2147483647) →
      write_sint ⟨c, d⟩ v =
        (.ok .I64, ⟨c - 9,
          d ++ [0xd3, (v % 18446744073709551616).toNat / 72057594037927936,
                (v % 18446744073709551616).toNat / 281474976710656 % 256,
                (v % 18446744073709551616).toNat / 1099511627776 % 256,
                (v % 18446744073709551616).toNat / 4294967296 % 256,
                (v % 18446744073709551616).toNat / 16777216 % 256,
                (v % 18446744073709551616).toNat / 65536 % 256,
                (v % 18446744073709551616).toNat / 256 % 256,
                (v % 18446744073709551616).toNat % 256]⟩)) := by
  refine ⟨?_, ?_, ?_, ?_, ?_⟩
  · intro h1l h1r
    have hti : toI8 v = v := by simp only [toI8]; omega
    have hf := write_fixval_ok c d (Marker.NegativeFixnum v) (by omega)
    simp only [Marker.to_u8] at hf
    simp [write_sint, h1l, h1r, hti, hf]
  · intro h1 h2l h2r
    have hti : toI8 v = v := by simp only [toI8]; omega
    have hw := write_i8_ok c d v (by omega)
    simp [write_sint, h1, h2l, h2r, hti, hw, i8Byte]
  · intro h2 h3l h3r
    have h1 : ¬ (-32 ≤ v ∧ v ≤ 0) := by omega
    have hti : toI16 v = v := by simp only [toI16]; omega
    have hw := write_i16_ok c d v (by omega)
    simp [write_sint, h1, h2, h3l, h3r, hti, hw, be2, i16Bits]
    omega
  · intro h3 h4l h4r
    have h1 : ¬ (-32 ≤ v ∧ v ≤ 0) := by omega
    have h2 : ¬ (-128 ≤ v ∧ v < 128) := by omega
    have hti : toI32 v = v := by simp only [toI32]; omega
    have hw := write_i32_ok c d v (by omega)
    simp [write_sint, h1, h2, h3, h4l, h4r, hti, hw, be4, i32Bits]
    omega
  · intro h4
    have h1 : ¬ (-32 ≤ v ∧ v ≤ 0) := by omega
    have h2 : ¬ (-128 ≤ v ∧ v < 128) := by omega
    have h3 : ¬ (-32768 ≤ v ∧ v < 32768) := by omega
    have hw := write_i64_ok c d v (by omega)
    simp [write_sint, h1, h2, h3, h4, hw, be8, i64Bits]
    omega

/-- C2 witness: write_sint at -1 takes the negative-fixnum branch and at 0
stays in that branch as well. -/
theorem write_sint_selects_witness :
    write_sint ⟨9, []⟩ (-1) = (.ok (Marker.NegativeFixnum (-1)), ⟨8, [0xff]⟩) :=
  (write_sint_selects (-1) 9 [] (by decide) (by decide) (by decide)).1
    (by decide) (by decide)

/-- C4: for every u32 length L, write_str_len selects the string-length header
by ascending thresholds: L < 32 emits the single byte 0xa0|L; 32 <= L < 256
emits [0xd9, L]; 256 <= L < 65536 emits 0xda plus L as 2 big-endian bytes;
otherwise 0xdb plus L as 4 big-endian bytes; in particular L=31 gives [0xbf],
L=32 gives [0xd9,0x20], and L=65536 gives [0xdb,0x00,0x01,0x00,0x00]. -/
theorem write_str_len_selects (L c : Nat) (d : List Nat)
    (hL : L < 4294967296) (hc : 5 ≤ c) :
    (L < 32 →
      write_str_len ⟨c, d⟩ L =
        (.ok (.FixedString L), ⟨c - 1, d ++ [0xa0 ||| L]⟩)) ∧
    (32 ≤ L → L < 256 →
      write_str_len ⟨c, d⟩ L = (.ok .Str8, ⟨c - 2, d ++ [0xd9, L]⟩)) ∧
    (256 ≤ L → L < 65536 →
      write_str_len ⟨c, d⟩ L =
        (.ok .Str16, ⟨c - 3, d ++ [0xda, L / 256, L % 256]⟩)) ∧
    (65536 ≤ L →
      write_str_len ⟨c, d⟩ L =
        (.ok .Str32, ⟨c - 5,
          d ++ [0xdb, L / 16777216, L / 65536 % 256, L / 256 % 256,
                L % 256]⟩)) ∧
    write_str_len ⟨5, []⟩ 31 = (.ok (.FixedString 31), ⟨4, [0xbf]⟩) ∧
    write_str_len ⟨5, []⟩ 32 = (.ok .Str8, ⟨3, [0xd9, 0x20]⟩) ∧
    write_str_len ⟨5, []⟩ 65536 =
      (.ok .Str32, ⟨0, [0xdb, 0x00, 0x01, 0x00, 0x00]⟩) := by
  refine ⟨?_, ?_, ?_, ?_, by rfl, by rfl, by rfl⟩
  · intro h1
    have htu : toU8 L = L := by simp only [toU8]; omega
    have hf := write_fixval_ok c d (Marker.FixedString L) (by omega)
    simp only [Marker.to_u8] at hf
    simp [write_str_len, h1, htu, hf]
  · intro h2l h2r
    have h1 : ¬ L < 32 := by omega
    have htu : toU8 L = L := by simp only [toU8]; omega
    have hm := write_marker_ok c d Marker.Str8 (by omega)
    simp only [Marker.to_u8] at hm
    have hd := write_data_u8_ok (c - 1) (d ++ [(0xd9 : Nat)]) L (by omega)
    simp [write_str_len, h1, h2r, htu, hm, hd, Nat.sub_sub]
  · intro h3l h3r
    have h1 : ¬ L < 32 := by omega
    have h2 : ¬ L < 256 := by omega
    have htu : toU16 L = L := by simp only [toU16]; omega
    have hm := write_marker_ok c d Marker.Str16 (by omega)
    simp only [Marker.to_u8] at hm
    have hd := write_data_u16_ok (c - 1) (d ++ [(0xda : Nat)]) L (by omega)
    simp [write_str_len, h1, h2, h3r, htu, hm, hd, be2, Nat.sub_sub]
    omega
  · intro h4
    have h1 : ¬ L < 32 := by omega
    have h2 : ¬ L < 256 := by omega
    have h3 : ¬ L < 65536 := by omega
    have hm := write_marker_ok c d Marker.Str32 (by omega)
    simp only [Marker.to_u8] at hm
    have hd := write_data_u32_ok (c - 1) (d ++ [(0xdb : Nat)]) L (by omega)
    simp [write_str_len, h1, h2, h3, hm, hd, be4, Nat.sub_sub]
    omega

/-- C4 witness: the boundary length 32 takes the Str8 branch. -/
theorem write_str_len_selects_witness :
    write_str_len ⟨5, []⟩ 32 = (.ok Marker.Str8, ⟨3, [0xd9, 0x20]⟩) :=
  (write_str_len_selects 32 5 [] (by decide) (by decide)).2.1
    (by decide) (by decide)

/-- C5: for every u32 length L and i8 tag t, write_ext_meta writes, when L is
one of 1,2,4,8,16, exactly the fixed-extension marker (0xd4/0xd5/0xd6/0xd7/
0xd8) followed by the 1-byte tag with no explicit length; otherwise the marker
0xc7/0xc8/0xc9 (for L < 256, L < 65536, else) followed by the length (1/2/4
big-endian bytes) and then the 1-byte tag, written verbatim; in particular
(L=1, t=5) yields [0xd4,0x05] and (L=256, t=-1) yields [0xc8,0x01,0x00,0xff]. -/
theorem write_ext_meta_selects (L c : Nat) (t : Int) (d : List Nat)
    (hL : L < 4294967296) (_ht1 : -128 ≤ t) (_ht2 : t < 128) (hc : 6 ≤ c) :
    (L = 1 →
      write_ext_meta ⟨c, d⟩ L t =
        (.ok .FixExt1, ⟨c - 2, d ++ [0xd4, (t % 256).toNat]⟩)) ∧
    (L = 2 →
      write_ext_meta ⟨c, d⟩ L t =
        (.ok .FixExt2, ⟨c - 2, d ++ [0xd5, (t % 256).toNat]⟩)) ∧
    (L = 4 →
      write_ext_meta ⟨c, d⟩ L t =
        (.ok .FixExt4, ⟨c - 2, d ++ [0xd6, (t % 256).toNat]⟩)) ∧
    (L = 8 →
      write_ext_meta ⟨c, d⟩ L t =
        (.ok .FixExt8, ⟨c - 2, d ++ [0xd7, (t % 256).toNat]⟩)) ∧
    (L = 16 →
      write_ext_meta ⟨c, d⟩ L t =
        (.ok .FixExt16, ⟨c - 2, d ++ [0xd8, (t % 256).toNat]⟩)) ∧
    (L ≠ 1 → L ≠ 2 → L ≠ 4 → L ≠ 8 → L ≠ 16 → L < 256 →
      write_ext_meta ⟨c, d⟩ L t =
        (.ok .Ext8, ⟨c - 3, d ++ [0xc7, L, (t % 256).toNat]⟩)) ∧
    (256 ≤ L → L < 65536 →
      write_ext_meta ⟨c, d⟩ L t =
        (.ok .Ext16, ⟨c - 4,
          d ++ [0xc8, L / 256, L % 256, (t % 256).toNat]⟩)) ∧
    (65536 ≤ L →
      write_ext_meta ⟨c, d⟩ L t =
        (.ok .Ext32, ⟨c - 6,
          d ++ [0xc9, L / 16777216, L / 65536 % 256, L / 256 % 256, L % 256,
                (t % 256).toNat]⟩)) ∧
    write_ext_meta ⟨6, []⟩ 1 5 = (.ok .FixExt1, ⟨4, [0xd4, 0x05]⟩) ∧
    write_ext_meta ⟨6, []⟩ 256 (-1) =
      (.ok .Ext16, ⟨2, [0xc8, 0x01, 0x00, 0xff]⟩) := by
  refine ⟨?_, ?_, ?_, ?_, ?_, ?_, ?_, ?_, by rfl, by rfl⟩
  · intro h
    subst h
    have hm := write_marker_ok c d Marker.FixExt1 (by omega)
    simp only [Marker.to_u8] at hm
    have hd := write_data_i8_ok (c - 1) (d ++ [(0xd4 : Nat)]) t (by omega)
    simp [write_ext_meta, hm, hd, i8Byte, Nat.sub_sub]
  · intro h
    subst h
    have hm := write_marker_ok c d Marker.FixExt2 (by omega)
    simp only [Marker.to_u8] at hm
    have hd := write_data_i8_ok (c - 1) (d ++ [(0xd5 : Nat)]) t (by omega)
    simp [write_ext_meta, hm, hd, i8Byte, Nat.sub_sub]
  · intro h
    subst h
    have hm := write_marker_ok c d Marker.FixExt4 (by omega)
    simp only [Marker.to_u8] at hm
    have hd := write_data_i8_ok (c - 1) (d ++ [(0xd6 : Nat)]) t (by omega)
    simp [write_ext_meta, hm, hd, i8Byte, Nat.sub_sub]
  · intro h
    subst h
    have hm := write_marker_ok c d Marker.FixExt8 (by omega)
    simp only [Marker.to_u8] at hm
    have hd := write_data_i8_ok (c - 1) (d ++ [(0xd7 : Nat)]) t (by omega)
    simp [write_ext_meta, hm, hd, i8Byte, Nat.sub_sub]
  · intro h
    subst h
    have hm := write_marker_ok c d Marker.FixExt16 (by omega)
    simp only [Marker.to_u8] at hm
    have hd := write_data_i8_ok (c - 1) (d ++ [(0xd8 : Nat)]) t (by omega)
    simp [write_ext_meta, hm, hd, i8Byte, Nat.sub_sub]
  · intro hn1 hn2 hn4 hn8 hn16 hlt
    have htu : toU8 L = L := by simp only [toU8]; omega
    have hm := write_marker_ok c d Marker.Ext8 (by omega)
    simp only [Marker.to_u8] at hm
    have hd1 := write_data_u8_ok (c - 1) (d ++ [(0xc7 : Nat)]) L (by omega)
    have hd2 := write_data_i8_ok (c - 2) (d ++ [(0xc7 : Nat), L]) t (by omega)
    simp [write_ext_meta, hn1, hn2, hn4, hn8, hn16, hlt, htu, hm, hd1, hd2,
      i8Byte, Nat.sub_sub]
  · intro h7l h7r
    have hn1 : L ≠ 1 := by omega
    have hn2 : L ≠ 2 := by omega
    have hn4 : L ≠ 4 := by omega
    have hn8 : L ≠ 8 := by omega
    have hn16 : L ≠ 16 := by omega
    have hn256 : ¬ L < 256 := by omega
    have htu : toU16 L = L := by simp only [toU16]; omega
    have hm := write_marker_ok c d Marker.Ext16 (by omega)
    simp only [Marker.to_u8] at hm
    have hd1 := write_data_u16_ok (c - 1) (d ++ [(0xc8 : Nat)]) L (by omega)
    simp only [be2] at hd1
    have hd2 := write_data_i8_ok (c - 3)
      (d ++ [(0xc8 : Nat), L / 256 % 256, L % 256]) t (by omega)
    simp [write_ext_meta, hn1, hn2, hn4, hn8, hn16, hn256, h7r, htu, hm,
      hd1, hd2, i8Byte, Nat.sub_sub]
    omega
  · intro h8
    have hn1 : L ≠ 1 := by omega
    have hn2 : L ≠ 2 := by omega
    have hn4 : L ≠ 4 := by omega
    have hn8 : L ≠ 8 := by omega
    have hn16 : L ≠ 16 := by omega
    have hn256 : ¬ L < 256 := by omega
    have hn65536 : ¬ L < 65536 := by omega
    have hm := write_marker_ok c d Marker.Ext32 (by omega)
    simp only [Marker.to_u8] at hm
    have hd1 := write_data_u32_ok (c - 1) (d ++ [(0xc9 : Nat)]) L (by omega)
    simp only [be4] at hd1
    have hd2 := write_data_i8_ok (c - 5)
      (d ++ [(0xc9 : Nat), L / 16777216 % 256, L / 65536 % 256, L / 256 % 256,
             L % 256]) t (by omega)
    simp [write_ext_meta, hn1, hn2, hn4, hn8, hn16, hn256, hn65536, hm,
      hd1, hd2, i8Byte, Nat.sub_sub]
    omega

/-- C5 witness: the fixed-extension and 16-bit-extension forms at the claim's
own instances. -/
theorem write_ext_meta_selects_witness :
    write_ext_meta ⟨6, []⟩ 1 5 = (.ok Marker.FixExt1, ⟨4, [0xd4, 0x05]⟩) :=
  (write_ext_meta_selects 1 6 5 [] (by decide) (by decide) (by decide)
    (by decide)).1 rfl

/-- C3 counterexample: write_sint applied to 0 takes the negative-fixnum
branch and builds (and returns) the marker NegativeFixnum 0, which lies
outside the documented NegativeFixnum domain -32..-1; so the claim that no
out-of-domain marker variant is ever built fails at input 0. -/
theorem write_sint_zero_out_of_domain :
    write_sint ⟨9, []⟩ 0 = (.ok (.NegativeFixnum 0), ⟨8, [0]⟩) ∧
    Marker.inDomain (.NegativeFixnum 0) = false :=
  ⟨rfl, rfl⟩

/-- C3 amended: every marker built by a selecting writer is within its
documented domain, with the single exception of write_sint applied to 0
(which builds NegativeFixnum 0): write_uint, write_sint away from 0, the
length writers, the extension writer, and the strict fixnum writers (on the
inputs they accept) only construct in-domain variants. -/
theorem encoder_markers_in_domain (s : Sink) :
    (∀ v m s', write_uint s v = (.ok m, s') → m.inDomain = true) ∧
    (∀ v m s', v ≠ 0 → write_sint s v = (.ok m, s') → m.inDomain = true) ∧
    (∀ L m s', write_str_len s L = (.ok m, s') → m.inDomain = true) ∧
    (∀ L m s', write_bin_len s L = (.ok m, s') → m.inDomain = true) ∧
    (∀ L m s', write_array_len s L = (.ok m, s') → m.inDomain = true) ∧
    (∀ L m s', write_map_len s L = (.ok m, s') → m.inDomain = true) ∧
    (∀ L t m s', write_ext_meta s L t = (.ok m, s') → m.inDomain = true) ∧
    (∀ v r, write_pfix s v = some r →
      (Marker.PositiveFixnum v).inDomain = true) ∧
    (∀ v r, write_nfix s v = some r →
      (Marker.NegativeFixnum v).inDomain = true) := by
  refine ⟨?_, ?_, ?_, ?_, ?_, ?_, ?_, ?_, ?_⟩
  · intro v m s' heq
    unfold write_uint at heq
    split_ifs at heq
    all_goals repeat' (split at heq)
    all_goals simp_all [Marker.inDomain, toU8]
    all_goals (obtain ⟨rfl, -⟩ := heq; simp; try omega)
  · intro v m s' hv heq
    unfold write_sint at heq
    split_ifs at heq
    all_goals repeat' (split at heq)
    all_goals simp_all [Marker.inDomain, toI8]
    all_goals (obtain ⟨rfl, -⟩ := heq; simp; try omega)
  · intro L m s' heq
    unfold write_str_len at heq
    split_ifs at heq
    all_goals repeat' (split at heq)
    all_goals simp_all [Marker.inDomain, toU8]
    all_goals (obtain ⟨rfl, -⟩ := heq; simp; try omega)
  · intro L m s' heq
    unfold write_bin_len at heq
    split_ifs at heq
    all_goals repeat' (split at heq)
    all_goals simp_all [Marker.inDomain]
    all_goals (obtain ⟨rfl, -⟩ := heq; simp; try omega)
  · intro L m s' heq
    unfold write_array_len at heq
    split_ifs at heq
    all_goals repeat' (split at heq)
    all_goals simp_all [Marker.inDomain, toU8]
    all_goals (obtain ⟨rfl, -⟩ := heq; simp; try omega)
  · intro L m s' heq
    unfold write_map_len at heq
    split_ifs at heq
    all_goals repeat' (split at heq)
    all_goals simp_all [Marker.inDomain, toU8]
    all_goals (obtain ⟨rfl, -⟩ := heq; simp; try omega)
  · intro L t m s' heq
    unfold write_ext_meta at heq
    split_ifs at heq
    all_goals repeat' (split at heq)
    all_goals simp_all [Marker.inDomain]
    all_goals (obtain ⟨rfl, -⟩ := heq; simp; try omega)
  · intro v r heq
    unfold write_pfix at heq
    split_ifs at heq with h
    simp [Marker.inDomain, h]
  · intro v r heq
    unfold write_nfix at heq
    split_ifs at heq with h
    simp [Marker.inDomain]
    omega

/-- C3 amended witness: a small fixed-string header is accepted and the
marker built for it is in-domain. -/
theorem encoder_markers_in_domain_witness :
    Marker.inDomain (Marker.FixedString 5) = true :=
  (encoder_markers_in_domain ⟨9, []⟩).2.2.1 5 (Marker.FixedString 5)
    ⟨8, [0xa5]⟩ (by rfl)

theorem write_data_u8_fail (d : List Nat) (v : Nat) :
    write_data_u8 ⟨0, d⟩ v = (.error (.InvalidDataWrite .io), ⟨0, d⟩) := by
  simp [write_data_u8, Sink.push]

theorem write_data_u16_fail (c : Nat) (d : List Nat) (v : Nat) (h : c < 2) :
    write_data_u16 ⟨c, d⟩ v =
      (.error (.InvalidDataWrite .io), ⟨0, d ++ (be2 v).take c⟩) := by
  have hp := Sink.push_over c d (be2 v) (by simp [be2]; omega)
  simp [write_data_u16, hp]

/-- C6: for the multi-byte writers write_u8 (2 bytes), write_u16 (3 bytes) and
write_str_len on a length in [32, 256) (2 bytes), run against a sink that
accepts exactly N bytes and then fails: N = 0 gives the marker-phase failure
InvalidMarkerWrite; 0 < N < total gives the data-phase failure
InvalidDataWrite (never re-attributed to the marker phase); and N at least
the total size gives success. -/
theorem value_write_error_phases (N v L : Nat) (hL1 : 32 ≤ L) (hL2 : L < 256) :
    (N = 0 →
      (write_u8 ⟨N, []⟩ v).1 = .error (.InvalidMarkerWrite .io) ∧
      (write_u16 ⟨N, []⟩ v).1 = .error (.InvalidMarkerWrite .io) ∧
      (write_str_len ⟨N, []⟩ L).1 = .error (.InvalidMarkerWrite .io)) ∧
    (N = 1 →
      (write_u8 ⟨N, []⟩ v).1 = .error (.InvalidDataWrite .io) ∧
      (write_u16 ⟨N, []⟩ v).1 = .error (.InvalidDataWrite .io) ∧
      (write_str_len ⟨N, []⟩ L).1 = .error (.InvalidDataWrite .io)) ∧
    (N = 2 →
      (write_u16 ⟨N, []⟩ v).1 = .error (.InvalidDataWrite .io)) ∧
    (2 ≤ N →
      (write_u8 ⟨N, []⟩ v).1 = .ok () ∧
      (write_str_len ⟨N, []⟩ L).1 = .ok .Str8) ∧
    (3 ≤ N →
      (write_u16 ⟨N, []⟩ v).1 = .ok ()) := by
  have hn32 : ¬ L < 32 := by omega
  refine ⟨?_, ?_, ?_, ?_, ?_⟩
  · intro hN
    subst hN
    refine ⟨?_, ?_, ?_⟩
    · simp [write_u8, write_marker_fail]
    · simp [write_u16, write_marker_fail]
    · simp [write_str_len, hn32, hL2, write_marker_fail]
  · intro hN
    subst hN
    have hm8 := write_marker_ok 1 [] Marker.U8 (by omega)
    have hm16 := write_marker_ok 1 [] Marker.U16 (by omega)
    have hms := write_marker_ok 1 [] Marker.Str8 (by omega)
    refine ⟨?_, ?_, ?_⟩
    · simp [write_u8, hm8, write_data_u8_fail]
    · simp [write_u16, hm16, write_data_u16_fail 0 _ _ (by omega)]
    · simp [write_str_len, hn32, hL2, hms, write_data_u8_fail]
  · intro hN
    subst hN
    have hm16 := write_marker_ok 2 [] Marker.U16 (by omega)
    simp [write_u16, hm16, write_data_u16_fail 1 _ _ (by omega)]
  · intro hN
    constructor
    · simp [write_u8_ok N [] v hN]
    · have hm := write_marker_ok N [] Marker.Str8 (by omega)
      simp only [Marker.to_u8] at hm
      have htu : toU8 L = L := by simp only [toU8]; omega
      have hd := write_data_u8_ok (N - 1) [(0xd9 : Nat)] L (by omega)
      simp [write_str_len, hn32, hL2, htu, hm, hd]
  · intro hN
    simp [write_u16_ok N [] v hN]

/-- C6 witness: at N = 1 against write_u8, the marker byte fits and the
failure is attributed to the data phase. -/
theorem value_write_error_phases_witness :
    (write_u8 ⟨1, []⟩ 0).1 = .error (ValueWriteError.InvalidDataWrite .io) :=
  ((value_write_error_phases 1 0 32 (by decide) (by decide)).2.1 rfl).1

/-- C7: the strict single-byte writers treat out-of-domain input as a panic,
distinct from the recoverable I/O result: write_pfix panics exactly when
v > 127, write_nfix panics exactly when v is outside -32 <= v < 0, and for
in-range input neither panics and each writes exactly the one fixnum byte. -/
theorem strict_fixnum_writers (v : Nat) (w : Int) (c : Nat) (d : List Nat)
    (_hv : v < 256) (_hw1 : -128 ≤ w) (_hw2 : w < 128) (hc : 1 ≤ c) :
    (write_pfix ⟨c, d⟩ v = none ↔ 127 < v) ∧
    (v < 128 → write_pfix ⟨c, d⟩ v = some (.ok (), ⟨c - 1, d ++ [v]⟩)) ∧
    (write_nfix ⟨c, d⟩ w = none ↔ ¬ (-32 ≤ w ∧ w < 0)) ∧
    (-32 ≤ w → w < 0 →
      write_nfix ⟨c, d⟩ w =
        some (.ok (), ⟨c - 1, d ++ [(w % 256).toNat]⟩)) := by
  refine ⟨?_, ?_, ?_, ?_⟩
  · unfold write_pfix
    split_ifs with h
    · simp
      omega
    · simp
      omega
  · intro h
    have hf := write_fixval_ok c d (.PositiveFixnum v) hc
    simp only [Marker.to_u8] at hf
    simp [write_pfix, h, hf]
  · unfold write_nfix
    split_ifs with h
    · simp
      omega
    · simpa using h
  · intro h1 h2
    have hf := write_fixval_ok c d (.NegativeFixnum w) hc
    simp only [Marker.to_u8] at hf
    simp [write_nfix, h1, h2, hf]

/-- C7 witness: in-range inputs do not panic and write the fixnum byte. -/
theorem strict_fixnum_writers_witness :
    write_pfix ⟨1, []⟩ 5 = some (.ok (), ⟨0, [5]⟩) :=
  (strict_fixnum_writers 5 (-5) 1 [] (by decide) (by decide) (by decide)
    (by decide)).2.1 (by decide)

/-- C8: encoding the two-element string sequence ["a","bb"] through the
structured-value encoder writes the array length prefix before any element
bytes and then each element's encoding in callback order, producing exactly
[0x92, 0xa1,0x61, 0xa2,0x62,0x62]. -/
theorem emit_seq_strings :
    emit_seq ⟨6, []⟩ 2 (fun e =>
      andThenE (emit_seq_elt e 0 (fun e1 => emit_str e1 [0x61]))
        (fun e2 => emit_seq_elt e2 1 (fun e3 => emit_str e3 [0x62, 0x62]))) =
      (.ok (), ⟨0, [0x92, 0xa1, 0x61, 0xa2, 0x62, 0x62]⟩) := rfl

/-- C9: optional values encode with no wrapper of their own: emit_option_none
writes exactly the nil byte 0xc0, while emit_option and emit_option_some run
the wrapped value's continuation directly, adding no bytes, so an absent
option is byte-for-byte indistinguishable from a bare nil value. -/
theorem emit_option_transparent (c : Nat) (d : List Nat) (hc : 1 ≤ c) :
    emit_option_none ⟨c, d⟩ = (.ok (), ⟨c - 1, d ++ [0xc0]⟩) ∧
    (∀ f s, emit_option s f = f s) ∧
    (∀ f s, emit_option_some s f = f s) := by
  refine ⟨?_, fun f s => rfl, fun f s => rfl⟩
  have hf := write_fixval_ok c d Marker.Null hc
  simp only [Marker.to_u8] at hf
  simp [emit_option_none, emit_nil, write_nil, hf]

/-- C9 witness: a one-byte sink takes exactly the nil byte. -/
theorem emit_option_transparent_witness :
    emit_option_none ⟨1, []⟩ = (.ok (), ⟨0, [0xc0]⟩) :=
  (emit_option_transparent 1 [] (by decide)).1

/-- C10: the structured-value encoder truncates oversized lengths instead of
rejecting them: for every length n >= 2^32, n mod 2^32 is strictly smaller
yet emit_seq, emit_map and emit_tuple behave exactly as on the truncated
length n mod 2^32, and emit_str writes the length header for the byte length
mod 2^32 while still writing every payload byte; no error or panic signals
the truncation. -/
theorem emit_length_truncation (n : Nat) (h : 4294967296 ≤ n) :
    n % 4294967296 < n ∧
    (∀ s f, emit_seq s n f = emit_seq s (n % 4294967296) f) ∧
    (∀ s f, emit_map s n f = emit_map s (n % 4294967296) f) ∧
    (∀ s f, emit_tuple s n f = emit_tuple s (n % 4294967296) f) ∧
    (∀ s val, List.length val = n →
      emit_str s val =
        match write_str_len s (n % 4294967296) with
        | (.error _, t) => (.error .Unimplemented, t)
        | (.ok _, t) =>
          match t.push val with
          | (true, u) => (.ok (), u)
          | (false, u) => (.error .Unimplemented, u)) := by
  have hmm : n % 4294967296 % 4294967296 = n % 4294967296 := by omega
  refine ⟨by omega, ?_, ?_, ?_, ?_⟩
  · intro s f
    simp [emit_seq, toU32, hmm]
  · intro s f
    simp [emit_map, toU32, hmm]
  · intro s f
    simp [emit_tuple, toU32, hmm]
  · intro s val hlen
    subst hlen
    simp [emit_str, toU32]

/-- C10 witness: at the boundary length 2^32 the truncated prefix is 0. -/
theorem emit_length_truncation_witness :
    (4294967296 : Nat) % 4294967296 < 4294967296 :=
  (emit_length_truncation 4294967296 (by decide)).1
